import Mathlib

/-!
Shallow embedding of the Aarogya health-telemetry core:
`src/Agents/analyze_health_data.py` (statistics & anomaly detection over a
pandas DataFrame) and `src/Agents/smartwatch_health_data_generator.py`
(the smart-watch reading generator).

Numeric values are modelled as exact rationals (`ℚ`); a pandas cell is an
`Option ℚ` where `none` models NaN / a missing value.  Python's `round`
(round-half-to-even) is modelled exactly on rationals by `pyRound1`.
-/

namespace Aarogya

/-- Failure modes.  `keyError` and `indexError` are the Python built-in
exceptions the scripts actually raise (`df[...]` on a missing column,
`.iloc[0]` on an empty frame, `dict[...]` on a missing key).  `configError`
and `dataError` are the typed errors named by the specification's error
taxonomy; no code path in the source constructs them. -/
inductive PyErr where
  | keyError
  | indexError
  | configError
  | dataError
deriving DecidableEq, Repr

/-- One row of a DataFrame: an association of column name to cell.
A cell holding `none` models NaN (e.g. a record that lacked that key). -/
abbrev Row := List (String × Option ℚ)

/-- A pandas DataFrame: the set of column names, and the rows.
A column access `df[c]` raises `KeyError` exactly when `c ∉ cols`;
rows missing an entry for an existing column read as NaN. -/
structure DataFrame where
  cols : List String
  rows : List Row
deriving DecidableEq, Repr

/-- The cell of row `r` in column `c` (NaN when the record lacks the key). -/
def cellVal (r : Row) (c : String) : Option ℚ :=
  (r.lookup c).join

/-- The column `c` as the list of its cells, one per row. -/
def colOf (df : DataFrame) (c : String) : List (Option ℚ) :=
  df.rows.map (fun r => cellVal r c)

/-- `df[c]`: the column, or `KeyError` when the column does not exist. -/
def getCol (df : DataFrame) (c : String) : Except PyErr (List (Option ℚ)) :=
  if c ∈ df.cols then .ok (colOf df c) else .error .keyError

/-- `series.iloc[0]`: first element, `IndexError` on an empty series. -/
def iloc0 (xs : List (Option ℚ)) : Except PyErr (Option ℚ) :=
  match xs with
  | [] => .error .indexError
  | x :: _ => .ok x

/-- `series.iloc[-1]`: last element, `IndexError` on an empty series. -/
def ilocLast (xs : List (Option ℚ)) : Except PyErr (Option ℚ) :=
  match xs.getLast? with
  | none => .error .indexError
  | some x => .ok x

/-- The non-NaN values of a column (pandas aggregates skip NaN). -/
def nnvals (xs : List (Option ℚ)) : List ℚ :=
  xs.filterMap id

/-- `series.mean()`: NaN-skipping mean; NaN when no value remains. -/
def pdMean (xs : List (Option ℚ)) : Option ℚ :=
  let v := nnvals xs
  if v.length = 0 then none else some (v.sum / v.length)

/-- `series.min()`: NaN-skipping minimum; NaN when no value remains. -/
def pdMin (xs : List (Option ℚ)) : Option ℚ :=
  match nnvals xs with
  | [] => none
  | y :: ys => some (ys.foldl min y)

/-- `series.max()`: NaN-skipping maximum; NaN when no value remains. -/
def pdMax (xs : List (Option ℚ)) : Option ℚ :=
  match nnvals xs with
  | [] => none
  | y :: ys => some (ys.foldl max y)

/-- `series.sum()`: NaN-skipping sum (pandas returns 0 for an empty sum). -/
def pdSum (xs : List (Option ℚ)) : ℚ :=
  (nnvals xs).sum

/-- `series.std()` with the pandas default ddof = 1: NaN for sample size
≤ 1 (after NaN skipping).  The source stores `round(std, 1)`, the rounded
square root of this quantity; the square root of a rational is in general
irrational, so the report entry records the sample variance
`Σ (x - mean)² / (n - 1)` instead.  It is NaN (`none`) exactly when the
source's std is NaN, and it determines the source's std value, which is
all the properties below use. -/
def pdVarSample (xs : List (Option ℚ)) : Option ℚ :=
  let v := nnvals xs
  if v.length ≤ 1 then none
  else
    some (((v.map (fun x => (x - v.sum / v.length) ^ 2)).sum) / ((v.length : ℚ) - 1))

/-- Python's `round(q, 1)`, exactly on rationals: round to the nearest
tenth, ties to the even multiple (round-half-to-even). -/
def pyRound1 (q : ℚ) : ℚ :=
  let x := q * 10
  let f : ℤ := ⌊x⌋
  let r : ℤ :=
    if x - f < 1 / 2 then f
    else if 1 / 2 < x - f then f + 1
    else if f % 2 = 0 then f else f + 1
  (r : ℚ) / 10

/-- `round(series-aggregate, 1)`; `round` of NaN is NaN. -/
def r1 (o : Option ℚ) : Option ℚ :=
  o.map pyRound1

/-- `len(df[df[c] <op> threshold])`: the number of cells whose value
satisfies `p` (a NaN cell satisfies no comparison). -/
def cntP (xs : List (Option ℚ)) (p : ℚ → Bool) : ℕ :=
  xs.countP (fun o => match o with | none => false | some v => p v)

/-- The `anomalies` dict built by `analyze_data_statistics`: its eight
fixed-threshold counters, in source order, from the relevant columns. -/
def anomaly_counts (hr sp tp sbp stress : List (Option ℚ)) : List (String × ℕ) :=
  [("high_heart_rate", cntP hr (fun v => 120 < v)),
   ("low_heart_rate", cntP hr (fun v => v < 60)),
   ("low_oxygen", cntP sp (fun v => v < 95)),
   ("high_temp", cntP tp (fun v => (37.2 : ℚ) < v)),
   ("low_temp", cntP tp (fun v => v < (36.1 : ℚ))),
   ("high_bp", cntP sbp (fun v => 130 < v)),
   ("low_bp", cntP sbp (fun v => v < 110)),
   ("high_stress", cntP stress (fun v => 6 < v))]

/-- The `stats` dict of `analyze_data_statistics`, flattened: the nested
Python dict is modelled as an association list with dotted keys
(`"heart_rate.avg"` for `stats['heart_rate']['avg']`); the two timestamps
interpolated into the `time_span` string appear as `"time_span.first"` and
`"time_span.last"`, and the two endpoints interpolated into each
`*_range` string as `".systolic_min"` / `".systolic_max"` etc.
Entry order follows the source. -/
def stats_of (n : ℕ) (first lastv : Option ℚ)
    (hr sp tp sbp dbp stress steps : List (Option ℚ)) :
    List (String × Option ℚ) :=
  [("total_readings", some (n : ℚ)),
   ("time_span.first", first),
   ("time_span.last", lastv),
   ("heart_rate.avg", r1 (pdMean hr)),
   ("heart_rate.min", pdMin hr),
   ("heart_rate.max", pdMax hr),
   ("heart_rate.std", pdVarSample hr),
   ("spo2.avg", r1 (pdMean sp)),
   ("spo2.min", r1 (pdMin sp)),
   ("spo2.max", r1 (pdMax sp)),
   ("temperature.avg", r1 (pdMean tp)),
   ("temperature.min", r1 (pdMin tp)),
   ("temperature.max", r1 (pdMax tp)),
   ("blood_pressure.systolic_avg", r1 (pdMean sbp)),
   ("blood_pressure.diastolic_avg", r1 (pdMean dbp)),
   ("blood_pressure.systolic_min", pdMin sbp),
   ("blood_pressure.systolic_max", pdMax sbp),
   ("blood_pressure.diastolic_min", pdMin dbp),
   ("blood_pressure.diastolic_max", pdMax dbp),
   ("stress_level.avg", r1 (pdMean stress)),
   ("stress_level.max", pdMax stress),
   ("total_steps", some (pdSum steps))]
  ++ (anomaly_counts hr sp tp sbp stress).map
      (fun kv => ("anomalies." ++ kv.1, some ((kv.2 : ℕ) : ℚ)))
  ++ [("total_anomalies",
        some ((((anomaly_counts hr sp tp sbp stress).map Prod.snd).sum : ℕ) : ℚ))]

/-- `analyze_data_statistics(df)`.  Column accesses happen in the order
the source dict literal evaluates them; the first failing access
determines the raised exception (`KeyError` for a missing column,
`IndexError` for `.iloc` on an empty frame). -/
def analyze_data_statistics (df : DataFrame) : Except PyErr (List (String × Option ℚ)) := do
  let ts ← getCol df "timestamp"
  let first ← iloc0 ts
  let lastv ← ilocLast ts
  let hr ← getCol df "heart_rate"
  let sp ← getCol df "spo2"
  let tp ← getCol df "temperature"
  let sbp ← getCol df "systolic_bp"
  let dbp ← getCol df "diastolic_bp"
  let stress ← getCol df "stress_level"
  let steps ← getCol df "steps"
  return stats_of df.rows.length first lastv hr sp tp sbp dbp stress steps

/-! ## The smart-watch generator (`smartwatch_health_data_generator.py`) -/

/-- A Python numeric literal as it appears in the generator's range
tuples: an int or a float.  `generate_reading`'s override loop dispatches
on `isinstance(value_range[0], int)`, i.e. on this tag. -/
inductive RV where
  | int (n : ℤ)
  | flt (q : ℚ)
deriving DecidableEq, Repr

/-- The numeric value of a range endpoint. -/
def RV.toQ : RV → ℚ
  | .int n => (n : ℚ)
  | .flt q => q

/-- The endpoint as the `int` Python would pass to `random.randint`.
The `flt` branch never fires for the configured ranges (every range fed
to `randint` has int endpoints); the floor is a harmless total-ization. -/
def RV.toZ : RV → ℤ
  | .int n => n
  | .flt q => ⌊q⌋

/-- `self.normal_ranges` from `SmartWatchDataGenerator.__init__`. -/
def normal_ranges : List (String × (RV × RV)) :=
  [("heart_rate", (.int 60, .int 100)),
   ("spo2", (.int 95, .int 100)),
   ("temperature", (.flt 36.1, .flt 37.2)),
   ("systolic_bp", (.int 110, .int 130)),
   ("diastolic_bp", (.int 70, .int 85)),
   ("steps", (.int 0, .int 150)),
   ("stress_level", (.int 1, .int 5)),
   ("sleep_hours", (.flt 6.5, .flt 9.0))]

/-- A value of an anomaly-profile dict: either a metric's override range
or the profile's `'probability'` selection weight. -/
inductive CfgVal where
  | range (lo hi : RV)
  | prob (p : ℚ)
deriving DecidableEq, Repr

/-- `self.anomaly_types` from `SmartWatchDataGenerator.__init__`: each
profile is a dict mixing override ranges with a `'probability'` weight,
kept here as an association list in source order. -/
def anomaly_types : List (String × List (String × CfgVal)) :=
  [("high_heart_rate",
      [("heart_rate", .range (.int 120) (.int 180)), ("probability", .prob 0.05)]),
   ("low_heart_rate",
      [("heart_rate", .range (.int 40) (.int 55)), ("probability", .prob 0.03)]),
   ("low_oxygen",
      [("spo2", .range (.int 85) (.int 94)), ("probability", .prob 0.04)]),
   ("high_temperature",
      [("temperature", .range (.flt 37.5) (.flt 39.5)), ("probability", .prob 0.03)]),
   ("low_temperature",
      [("temperature", .range (.flt 35.0) (.flt 36.0)), ("probability", .prob 0.02)]),
   ("high_bp",
      [("systolic_bp", .range (.int 140) (.int 180)),
       ("diastolic_bp", .range (.int 90) (.int 110)), ("probability", .prob 0.04)]),
   ("low_bp",
      [("systolic_bp", .range (.int 80) (.int 100)),
       ("diastolic_bp", .range (.int 50) (.int 65)), ("probability", .prob 0.03)]),
   ("high_stress",
      [("stress_level", .range (.int 7) (.int 10)), ("probability", .prob 0.06)]),
   ("poor_sleep",
      [("sleep_hours", .range (.flt 3.0) (.flt 5.5)), ("probability", .prob 0.04)]),
   ("excessive_sleep",
      [("sleep_hours", .range (.flt 10.0) (.flt 12.0)), ("probability", .prob 0.02)])]

/-- The `'probability'` weight of a profile dict. Every configured profile
carries one; the fallback 0 is unreachable for `anomaly_types`. -/
def cfgProb (cfg : List (String × CfgVal)) : ℚ :=
  match cfg.lookup "probability" with
  | some (.prob p) => p
  | _ => 0

/-- The random source one `generate_reading` call consumes, as an oracle:
the value of `random.random()`, the profile `random.choices(...)[0]`
picks, and the draws of `random.randint` / `random.uniform` keyed by their
bounds.  No two draws in a single call share a sampler and bounds, so
every concrete execution is represented by some oracle. -/
structure RandSrc where
  randfloat : ℚ
  choicesPick : List String → List ℚ → String
  randint : ℤ → ℤ → ℤ
  uniform : ℚ → ℚ → ℚ

/-- What Python's `random` module guarantees of the draws. -/
def RandSrc.Valid (g : RandSrc) : Prop :=
  (0 ≤ g.randfloat ∧ g.randfloat < 1) ∧
  (∀ pop w, pop ≠ [] → g.choicesPick pop w ∈ pop) ∧
  (∀ a b : ℤ, a ≤ b → a ≤ g.randint a b ∧ g.randint a b ≤ b) ∧
  (∀ a b : ℚ, a ≤ b → a ≤ g.uniform a b ∧ g.uniform a b ≤ b)

/-- `random.randint(*r)` as the reading stores it (a Python int). -/
def randintR (g : RandSrc) (r : RV × RV) : ℚ :=
  ((g.randint r.1.toZ r.2.toZ : ℤ) : ℚ)

/-- `round(random.uniform(*r), 1)` as the reading stores it. -/
def uniformR (g : RandSrc) (r : RV × RV) : ℚ :=
  pyRound1 (g.uniform r.1.toQ r.2.toQ)

/-- `self._should_trigger_anomaly()`: `random.random() < 0.15`. -/
def should_trigger_anomaly (g : RandSrc) : Bool :=
  decide (g.randfloat < 0.15)

/-- `self._select_anomaly()`: a weighted pick among the profile names. -/
def select_anomaly (g : RandSrc) : String :=
  g.choicesPick (anomaly_types.map Prod.fst) (anomaly_types.map (fun kv => cfgProb kv.2))

/-- `self.normal_ranges[m]`; the fallback is unreachable for the eight
metric names `generate_reading` looks up. -/
def nrange (m : String) : RV × RV :=
  (normal_ranges.lookup m).getD (.int 0, .int 0)

/-- The base `data` dict of `generate_reading`: every metric sampled from
its normal range, ints by `randint`, continuous metrics by rounded
`uniform`, in source key order. -/
def base_data (g : RandSrc) (timestamp : ℚ) : List (String × ℚ) :=
  [("timestamp", timestamp),
   ("heart_rate", randintR g (nrange "heart_rate")),
   ("spo2", uniformR g (nrange "spo2")),
   ("temperature", uniformR g (nrange "temperature")),
   ("systolic_bp", randintR g (nrange "systolic_bp")),
   ("diastolic_bp", randintR g (nrange "diastolic_bp")),
   ("steps", randintR g (nrange "steps")),
   ("stress_level", randintR g (nrange "stress_level")),
   ("sleep_hours", uniformR g (nrange "sleep_hours"))]

/-- Python dict assignment `d[k] = v`: replaces the value in place when
the key exists, appends the pair otherwise.  (The dicts built here have
unique keys.) -/
def setKey (d : List (String × ℚ)) (k : String) (v : ℚ) : List (String × ℚ) :=
  if (d.lookup k).isSome then d.map (fun kv => if kv.1 = k then (k, v) else kv)
  else d ++ [(k, v)]

/-- One iteration of the override loop of `generate_reading`: for a
profile entry other than `'probability'`, overwrite the metric with a
draw from the override range, `randint` when the lower endpoint is an
int, rounded `uniform` otherwise.  (`prob` under a non-`'probability'`
key never occurs in `anomaly_types`.) -/
def apply_one (g : RandSrc) (d : List (String × ℚ)) (kv : String × CfgVal) :
    List (String × ℚ) :=
  if kv.1 = "probability" then d
  else
    match kv.2 with
    | .range lo hi =>
        match lo with
        | .int _ => setKey d kv.1 (randintR g (lo, hi))
        | .flt _ => setKey d kv.1 (uniformR g (lo, hi))
    | .prob _ => d

/-- The override loop of `generate_reading`:
`for metric, value_range in anomaly_config.items(): ...`. -/
def apply_anomaly (g : RandSrc) (cfg : List (String × CfgVal))
    (d : List (String × ℚ)) : List (String × ℚ) :=
  cfg.foldl (apply_one g) d

/-- The `anomaly_type` local of `generate_reading`:
`force_anomaly if force_anomaly else (self._select_anomaly() if is_anomaly
else None)` — note a forced empty string is falsy, so it falls through to
the random selection (`is_anomaly` is true whenever `force_anomaly` is not
`None`). -/
def reading_anomaly (g : RandSrc) (force_anomaly : Option String) : Option String :=
  let is_anomaly := force_anomaly.isSome || should_trigger_anomaly g
  match force_anomaly with
  | some s => if s = "" then (if is_anomaly then some (select_anomaly g) else none) else some s
  | none => if is_anomaly then some (select_anomaly g) else none

/-- `SmartWatchDataGenerator.generate_reading(timestamp, force_anomaly)`.
The reading is the Python dict, in insertion order.  Looking up an unknown
anomaly name in `self.anomaly_types` raises `KeyError`; the guard
`if is_anomaly and anomaly_type:` skips application when `anomaly_type`
is falsy. -/
def generate_reading (g : RandSrc) (timestamp : ℚ) (force_anomaly : Option String) :
    Except PyErr (List (String × ℚ)) :=
  let is_anomaly := force_anomaly.isSome || should_trigger_anomaly g
  let data := base_data g timestamp
  match reading_anomaly g force_anomaly with
  | none => .ok data
  | some a =>
      if is_anomaly && a ≠ "" then
        match anomaly_types.lookup a with
        | none => .error .keyError
        | some cfg => .ok (apply_anomaly g cfg data)
      else .ok data


/-! ## Structural lemmas about the statistics engine -/

/-- The columns `analyze_data_statistics` reads, in first-access order. -/
def required_cols : List String :=
  ["timestamp", "heart_rate", "spo2", "temperature", "systolic_bp",
   "diastolic_bp", "stress_level", "steps"]

lemma getCol_ok {df : DataFrame} {c : String} {xs : List (Option ℚ)}
    (h : getCol df c = .ok xs) : c ∈ df.cols ∧ xs = colOf df c := by
  unfold getCol at h
  split_ifs at h with hc
  injection h with h2
  exact ⟨hc, h2.symm⟩

lemma getCol_error {df : DataFrame} {c : String} {e : PyErr}
    (h : getCol df c = .error e) : e = .keyError := by
  unfold getCol at h
  split_ifs at h with hc
  injection h with h2
  exact h2.symm

lemma iloc0_error {xs : List (Option ℚ)} {e : PyErr} (h : iloc0 xs = .error e) :
    e = .indexError := by
  unfold iloc0 at h
  split at h <;> simp_all

lemma ilocLast_error {xs : List (Option ℚ)} {e : PyErr} (h : ilocLast xs = .error e) :
    e = .indexError := by
  unfold ilocLast at h
  split at h <;> simp_all

lemma iloc0_ok {xs : List (Option ℚ)} {v : Option ℚ} (h : iloc0 xs = .ok v) :
    xs ≠ [] := by
  unfold iloc0 at h
  split at h <;> simp_all

lemma analyze_eq (df : DataFrame)
    (hts : "timestamp" ∈ df.cols) (hhr : "heart_rate" ∈ df.cols)
    (hsp : "spo2" ∈ df.cols) (htp : "temperature" ∈ df.cols)
    (hsb : "systolic_bp" ∈ df.cols) (hdb : "diastolic_bp" ∈ df.cols)
    (hst : "stress_level" ∈ df.cols) (hsx : "steps" ∈ df.cols)
    (hne : df.rows ≠ []) :
    analyze_data_statistics df =
      .ok (stats_of df.rows.length ((colOf df "timestamp").headD none)
            ((colOf df "timestamp").getLast?.getD none)
            (colOf df "heart_rate") (colOf df "spo2") (colOf df "temperature")
            (colOf df "systolic_bp") (colOf df "diastolic_bp")
            (colOf df "stress_level") (colOf df "steps")) := by
  obtain ⟨r, rs, hrw⟩ := List.exists_cons_of_ne_nil hne
  have hlast : ∃ y, df.rows.getLast? = some y := by
    rw [← Option.isSome_iff_exists, List.getLast?_isSome]
    exact hne
  obtain ⟨y, hy⟩ := hlast
  rw [hrw] at hy
  simp only [analyze_data_statistics, getCol, if_pos hts, if_pos hhr, if_pos hsp,
    if_pos htp, if_pos hsb, if_pos hdb, if_pos hst, if_pos hsx]
  simp [iloc0, ilocLast, colOf, bind, Except.bind, hrw, List.getLast?_map, hy]
  have h2 : (cellVal r "timestamp" :: List.map (fun z => cellVal z "timestamp") rs).getLast? =
      some (cellVal y "timestamp") := by
    rw [show (cellVal r "timestamp" :: List.map (fun z => cellVal z "timestamp") rs) =
        List.map (fun z => cellVal z "timestamp") (r :: rs) from rfl,
      List.getLast?_map, hy]
    rfl
  rw [h2]
  rfl

lemma analyze_ok_cond {df : DataFrame} {st : List (String × Option ℚ)}
    (h : analyze_data_statistics df = .ok st) :
    df.rows ≠ [] ∧ ∀ c ∈ required_cols, c ∈ df.cols := by
  simp only [analyze_data_statistics, bind, Except.bind] at h
  cases h0 : getCol df "timestamp" with
  | error e2 => rw [h0] at h; exact Except.noConfusion h
  | ok ts =>
  rw [h0] at h
  simp only [Except.bind] at h
  cases h1 : iloc0 ts with
  | error e2 => rw [h1] at h; exact Except.noConfusion h
  | ok v1 =>
  rw [h1] at h
  simp only [Except.bind] at h
  cases h2 : ilocLast ts with
  | error e2 => rw [h2] at h; exact Except.noConfusion h
  | ok v2 =>
  rw [h2] at h
  simp only [Except.bind] at h
  cases h3 : getCol df "heart_rate" with
  | error e2 => rw [h3] at h; exact Except.noConfusion h
  | ok hr =>
  rw [h3] at h
  simp only [Except.bind] at h
  cases h4 : getCol df "spo2" with
  | error e2 => rw [h4] at h; exact Except.noConfusion h
  | ok sp =>
  rw [h4] at h
  simp only [Except.bind] at h
  cases h5 : getCol df "temperature" with
  | error e2 => rw [h5] at h; exact Except.noConfusion h
  | ok tp =>
  rw [h5] at h
  simp only [Except.bind] at h
  cases h6 : getCol df "systolic_bp" with
  | error e2 => rw [h6] at h; exact Except.noConfusion h
  | ok sb =>
  rw [h6] at h
  simp only [Except.bind] at h
  cases h7 : getCol df "diastolic_bp" with
  | error e2 => rw [h7] at h; exact Except.noConfusion h
  | ok db =>
  rw [h7] at h
  simp only [Except.bind] at h
  cases h8 : getCol df "stress_level" with
  | error e2 => rw [h8] at h; exact Except.noConfusion h
  | ok sl =>
  rw [h8] at h
  simp only [Except.bind] at h
  cases h9 : getCol df "steps" with
  | error e2 => rw [h9] at h; exact Except.noConfusion h
  | ok sx =>
  rw [h9] at h
  simp only [Except.bind] at h
  refine ⟨?_, ?_⟩
  · have hx := iloc0_ok h1
    have hcol := (getCol_ok h0).2
    subst hcol
    simpa [colOf] using hx
  · intro c hc
    fin_cases hc
    · exact (getCol_ok h0).1
    · exact (getCol_ok h3).1
    · exact (getCol_ok h4).1
    · exact (getCol_ok h5).1
    · exact (getCol_ok h6).1
    · exact (getCol_ok h7).1
    · exact (getCol_ok h8).1
    · exact (getCol_ok h9).1

lemma analyze_error_kind {df : DataFrame} {e : PyErr}
    (h : analyze_data_statistics df = .error e) :
    e = .keyError ∨ e = .indexError := by
  simp only [analyze_data_statistics, bind, Except.bind] at h
  cases h0 : getCol df "timestamp" with
  | error e2 =>
    rw [h0] at h
    injection h with hinj
    left
    rw [← hinj]
    exact getCol_error h0
  | ok ts =>
  rw [h0] at h
  simp only [Except.bind] at h
  cases h1 : iloc0 ts with
  | error e2 =>
    rw [h1] at h
    injection h with hinj
    right
    rw [← hinj]
    exact iloc0_error h1
  | ok v1 =>
  rw [h1] at h
  simp only [Except.bind] at h
  cases h2 : ilocLast ts with
  | error e2 =>
    rw [h2] at h
    injection h with hinj
    right
    rw [← hinj]
    exact ilocLast_error h2
  | ok v2 =>
  rw [h2] at h
  simp only [Except.bind] at h
  cases h3 : getCol df "heart_rate" with
  | error e2 =>
    rw [h3] at h
    injection h with hinj
    left
    rw [← hinj]
    exact getCol_error h3
  | ok hr =>
  rw [h3] at h
  simp only [Except.bind] at h
  cases h4 : getCol df "spo2" with
  | error e2 =>
    rw [h4] at h
    injection h with hinj
    left
    rw [← hinj]
    exact getCol_error h4
  | ok sp =>
  rw [h4] at h
  simp only [Except.bind] at h
  cases h5 : getCol df "temperature" with
  | error e2 =>
    rw [h5] at h
    injection h with hinj
    left
    rw [← hinj]
    exact getCol_error h5
  | ok tp =>
  rw [h5] at h
  simp only [Except.bind] at h
  cases h6 : getCol df "systolic_bp" with
  | error e2 =>
    rw [h6] at h
    injection h with hinj
    left
    rw [← hinj]
    exact getCol_error h6
  | ok sb =>
  rw [h6] at h
  simp only [Except.bind] at h
  cases h7 : getCol df "diastolic_bp" with
  | error e2 =>
    rw [h7] at h
    injection h with hinj
    left
    rw [← hinj]
    exact getCol_error h7
  | ok db =>
  rw [h7] at h
  simp only [Except.bind] at h
  cases h8 : getCol df "stress_level" with
  | error e2 =>
    rw [h8] at h
    injection h with hinj
    left
    rw [← hinj]
    exact getCol_error h8
  | ok sl =>
  rw [h8] at h
  simp only [Except.bind] at h
  cases h9 : getCol df "steps" with
  | error e2 =>
    rw [h9] at h
    injection h with hinj
    left
    rw [← hinj]
    exact getCol_error h9
  | ok sx =>
  rw [h9] at h
  simp only [Except.bind] at h
  exact Except.noConfusion h


/-! ## Rows, frames and helper predicates for the claim statements -/

/-- The column set of the generator's CSV exchange format (minus
`person_id`, which the analyzer never reads), in dict order. -/
def all_cols : List String :=
  ["timestamp", "heart_rate", "spo2", "temperature", "systolic_bp",
   "diastolic_bp", "steps", "stress_level", "sleep_hours"]

/-- A fully populated reading row, in the generator's field order. -/
def mkRow (t hr sp tp sbp dbp steps stress sleep : ℚ) : Row :=
  [("timestamp", some t), ("heart_rate", some hr), ("spo2", some sp),
   ("temperature", some tp), ("systolic_bp", some sbp),
   ("diastolic_bp", some dbp), ("steps", some steps),
   ("stress_level", some stress), ("sleep_hours", some sleep)]

/-- A frame over the full column set. -/
def mkDf (rows : List Row) : DataFrame :=
  ⟨all_cols, rows⟩

/-- Whether a reading satisfies a threshold condition on a metric
(a reading with the metric missing/NaN satisfies no condition). -/
def rowHits (r : Row) (c : String) (p : ℚ → Bool) : Bool :=
  match cellVal r c with
  | some v => p v
  | none => false

lemma cntP_colOf (df : DataFrame) (c : String) (p : ℚ → Bool) :
    cntP (colOf df c) p = df.rows.countP (fun r => rowHits r c p) := by
  unfold cntP colOf rowHits
  rw [List.countP_map]
  congr 1
  funext r
  simp only [Function.comp]
  cases cellVal r c <;> rfl

/-- A one-reading series whose reading satisfies the spec's `poor_sleep`
condition (sleep_hours = 3.0 < 6.5) and no other rule condition. -/
def dfPoorSleep : DataFrame :=
  mkDf [mkRow 0 70 97 36.5 120 80 100 3 3]

/-- C1 (claim as stated is false): the report of a series containing a
reading with sleep_hours < 6.5 carries no `poor_sleep` counter at all
(nor an `excessive_sleep` one) — the `anomalies` dict of
`analyze_data_statistics` has only eight keys, none for sleep. -/
theorem report_lacks_sleep_counters :
    ∃ st, analyze_data_statistics dfPoorSleep = .ok st ∧
      st.lookup "anomalies.poor_sleep" = none ∧
      st.lookup "anomalies.excessive_sleep" = none ∧
      dfPoorSleep.rows.countP (fun r => rowHits r "sleep_hours" (fun v => v < (6.5 : ℚ))) = 1 := by
  refine ⟨_, rfl, rfl, rfl, ?_⟩
  simp [dfPoorSleep, mkDf, mkRow, rowHits, cellVal, List.lookup, List.countP_cons]
  norm_num

/-- C1 (amended): for every non-empty series carrying the analyzer's
required columns, the report holds one anomaly counter for each of the
eight implemented rules — `poor_sleep` and `excessive_sleep` are not
among them — and each counter equals the number of readings satisfying
that rule's threshold condition. -/
theorem report_rule_counters (df : DataFrame)
    (hcols : ∀ c ∈ required_cols, c ∈ df.cols) (hne : df.rows ≠ []) :
    ∃ st, analyze_data_statistics df = .ok st ∧
      st.lookup "anomalies.high_heart_rate"
        = some (some ((df.rows.countP (fun r => rowHits r "heart_rate" (fun v => 120 < v)) : ℕ) : ℚ)) ∧
      st.lookup "anomalies.low_heart_rate"
        = some (some ((df.rows.countP (fun r => rowHits r "heart_rate" (fun v => v < 60)) : ℕ) : ℚ)) ∧
      st.lookup "anomalies.low_oxygen"
        = some (some ((df.rows.countP (fun r => rowHits r "spo2" (fun v => v < 95)) : ℕ) : ℚ)) ∧
      st.lookup "anomalies.high_temp"
        = some (some ((df.rows.countP (fun r => rowHits r "temperature" (fun v => (37.2 : ℚ) < v)) : ℕ) : ℚ)) ∧
      st.lookup "anomalies.low_temp"
        = some (some ((df.rows.countP (fun r => rowHits r "temperature" (fun v => v < (36.1 : ℚ))) : ℕ) : ℚ)) ∧
      st.lookup "anomalies.high_bp"
        = some (some ((df.rows.countP (fun r => rowHits r "systolic_bp" (fun v => 130 < v)) : ℕ) : ℚ)) ∧
      st.lookup "anomalies.low_bp"
        = some (some ((df.rows.countP (fun r => rowHits r "systolic_bp" (fun v => v < 110)) : ℕ) : ℚ)) ∧
      st.lookup "anomalies.high_stress"
        = some (some ((df.rows.countP (fun r => rowHits r "stress_level" (fun v => 6 < v)) : ℕ) : ℚ)) ∧
      st.lookup "anomalies.poor_sleep" = none ∧
      st.lookup "anomalies.excessive_sleep" = none := by
  have hts := hcols "timestamp" (by simp [required_cols])
  have hhr := hcols "heart_rate" (by simp [required_cols])
  have hsp := hcols "spo2" (by simp [required_cols])
  have htp := hcols "temperature" (by simp [required_cols])
  have hsb := hcols "systolic_bp" (by simp [required_cols])
  have hdb := hcols "diastolic_bp" (by simp [required_cols])
  have hst := hcols "stress_level" (by simp [required_cols])
  have hsx := hcols "steps" (by simp [required_cols])
  refine ⟨_, analyze_eq df hts hhr hsp htp hsb hdb hst hsx hne, ?_⟩
  simp [stats_of, anomaly_counts, List.lookup, cntP_colOf]

/-- Witness for the amended C1 at a concrete frame. -/
theorem report_rule_counters_witness :
    ∃ st, analyze_data_statistics dfPoorSleep = .ok st ∧
      st.lookup "anomalies.high_heart_rate"
        = some (some ((dfPoorSleep.rows.countP (fun r => rowHits r "heart_rate" (fun v => 120 < v)) : ℕ) : ℚ)) ∧
      st.lookup "anomalies.low_heart_rate"
        = some (some ((dfPoorSleep.rows.countP (fun r => rowHits r "heart_rate" (fun v => v < 60)) : ℕ) : ℚ)) ∧
      st.lookup "anomalies.low_oxygen"
        = some (some ((dfPoorSleep.rows.countP (fun r => rowHits r "spo2" (fun v => v < 95)) : ℕ) : ℚ)) ∧
      st.lookup "anomalies.high_temp"
        = some (some ((dfPoorSleep.rows.countP (fun r => rowHits r "temperature" (fun v => (37.2 : ℚ) < v)) : ℕ) : ℚ)) ∧
      st.lookup "anomalies.low_temp"
        = some (some ((dfPoorSleep.rows.countP (fun r => rowHits r "temperature" (fun v => v < (36.1 : ℚ))) : ℕ) : ℚ)) ∧
      st.lookup "anomalies.high_bp"
        = some (some ((dfPoorSleep.rows.countP (fun r => rowHits r "systolic_bp" (fun v => 130 < v)) : ℕ) : ℚ)) ∧
      st.lookup "anomalies.low_bp"
        = some (some ((dfPoorSleep.rows.countP (fun r => rowHits r "systolic_bp" (fun v => v < 110)) : ℕ) : ℚ)) ∧
      st.lookup "anomalies.high_stress"
        = some (some ((dfPoorSleep.rows.countP (fun r => rowHits r "stress_level" (fun v => 6 < v)) : ℕ) : ℚ)) ∧
      st.lookup "anomalies.poor_sleep" = none ∧
      st.lookup "anomalies.excessive_sleep" = none :=
  report_rule_counters dfPoorSleep (by decide) (by decide)


/-! ## C2: which aggregates the report actually contains -/

/-- The full key set of the report, in source evaluation order. -/
def stat_keys : List String :=
  ["total_readings", "time_span.first", "time_span.last",
   "heart_rate.avg", "heart_rate.min", "heart_rate.max", "heart_rate.std",
   "spo2.avg", "spo2.min", "spo2.max",
   "temperature.avg", "temperature.min", "temperature.max",
   "blood_pressure.systolic_avg", "blood_pressure.diastolic_avg",
   "blood_pressure.systolic_min", "blood_pressure.systolic_max",
   "blood_pressure.diastolic_min", "blood_pressure.diastolic_max",
   "stress_level.avg", "stress_level.max", "total_steps",
   "anomalies.high_heart_rate", "anomalies.low_heart_rate",
   "anomalies.low_oxygen", "anomalies.high_temp", "anomalies.low_temp",
   "anomalies.high_bp", "anomalies.low_bp", "anomalies.high_stress",
   "total_anomalies"]

/-- A two-reading series with every metric present and sample size 2. -/
def dfTwo : DataFrame :=
  mkDf [mkRow 0 70 97 36.5 120 80 100 3 7, mkRow 1 80 96 36.8 125 82 50 4 8]

/-- C2 (claim as stated is false): on a fully populated two-reading
series, the report computes no standard deviation for the
continuous-valued metrics spo2 and temperature, no mean for sleep_hours
or steps, and no minimum for stress_level — so `summarize` does not
compute mean/min/max for every metric present, nor a standard deviation
for every continuous metric with sample size > 1. -/
theorem summarize_missing_aggregates :
    ∃ st, analyze_data_statistics dfTwo = .ok st ∧
      dfTwo.rows.length = 2 ∧
      st.lookup "temperature.std" = none ∧
      st.lookup "spo2.std" = none ∧
      st.lookup "sleep_hours.avg" = none ∧
      st.lookup "steps.avg" = none ∧
      st.lookup "stress_level.min" = none := by
  exact ⟨_, rfl, rfl, rfl, rfl, rfl, rfl, rfl⟩

/-- C2 (amended): for every non-empty series with the required columns,
`summarize` returns a report whose keys are exactly `stat_keys`: mean,
min and max for heart_rate, spo2 and temperature only; mean plus the two
range endpoints for the blood pressures; mean and max (no min) for
stress_level; only a total for steps; nothing for sleep_hours; and a
standard deviation only for heart_rate, which is NaN rather than omitted
— and no failure — when the heart_rate sample size is ≤ 1. -/
theorem summarize_aggregate_fields (df : DataFrame)
    (hcols : ∀ c ∈ required_cols, c ∈ df.cols) (hne : df.rows ≠ []) :
    ∃ st, analyze_data_statistics df = .ok st ∧
      st.map Prod.fst = stat_keys ∧
      ((nnvals (colOf df "heart_rate")).length ≤ 1 →
        st.lookup "heart_rate.std" = some none) ∧
      (1 < (nnvals (colOf df "heart_rate")).length →
        ∃ q, st.lookup "heart_rate.std" = some (some q)) := by
  have hts := hcols "timestamp" (by simp [required_cols])
  have hhr := hcols "heart_rate" (by simp [required_cols])
  have hsp := hcols "spo2" (by simp [required_cols])
  have htp := hcols "temperature" (by simp [required_cols])
  have hsb := hcols "systolic_bp" (by simp [required_cols])
  have hdb := hcols "diastolic_bp" (by simp [required_cols])
  have hst := hcols "stress_level" (by simp [required_cols])
  have hsx := hcols "steps" (by simp [required_cols])
  refine ⟨_, analyze_eq df hts hhr hsp htp hsb hdb hst hsx hne, ?_, ?_, ?_⟩
  · simp [stats_of, anomaly_counts, stat_keys]
  · intro hle
    simp [stats_of, anomaly_counts, List.lookup, pdVarSample, hle]
  · intro hgt
    simp [stats_of, anomaly_counts, List.lookup, pdVarSample, Nat.not_le.mpr hgt]

/-- Witness for the amended C2 at a concrete two-reading frame. -/
theorem summarize_aggregate_fields_witness :
    ∃ st, analyze_data_statistics dfTwo = .ok st ∧
      st.map Prod.fst = stat_keys ∧
      ((nnvals (colOf dfTwo "heart_rate")).length ≤ 1 →
        st.lookup "heart_rate.std" = some none) ∧
      (1 < (nnvals (colOf dfTwo "heart_rate")).length →
        ∃ q, st.lookup "heart_rate.std" = some (some q)) :=
  summarize_aggregate_fields dfTwo (by decide) (by decide)

/-! ## C3: when and how the analyzer fails -/

/-- A reading record with no `heart_rate` entry at all (its cell reads
as NaN, as `pandas` renders a record missing a key). -/
def rowNoHr : Row :=
  [("timestamp", some 1), ("spo2", some 96), ("temperature", some 36.6),
   ("systolic_bp", some 118), ("diastolic_bp", some 78), ("steps", some 40),
   ("stress_level", some 2), ("sleep_hours", some 7)]

/-- A series in which the second reading is missing the required
heart_rate metric. -/
def dfMissingMetric : DataFrame :=
  mkDf [mkRow 0 70 97 36.5 120 80 100 3 7, rowNoHr]

/-- C3 (claim as stated is false): a series containing a reading that is
missing a required metric (heart_rate) is summarized without any
failure, and the failure on an empty series is an (untyped) IndexError,
not a `DataError` — no `DataError` is ever constructed. -/
theorem summarize_dataerror_false :
    (∃ st, analyze_data_statistics dfMissingMetric = .ok st) ∧
    rowNoHr.lookup "heart_rate" = none ∧
    analyze_data_statistics (mkDf []) = .error .indexError ∧
    PyErr.indexError ≠ PyErr.dataError := by
  exact ⟨⟨_, rfl⟩, rfl, rfl, by decide⟩

/-- C3 (amended): `analyze_data_statistics` succeeds exactly when the
frame is non-empty and carries all eight columns it reads (a reading
individually missing a metric value, or a wholly absent `sleep_hours`
column, does not cause failure), and every failure is a `KeyError` or an
`IndexError` — never a typed `DataError`. -/
theorem analyze_failure_characterization (df : DataFrame) :
    ((∃ st, analyze_data_statistics df = .ok st) ↔
      (df.rows ≠ [] ∧ ∀ c ∈ required_cols, c ∈ df.cols)) ∧
    (∀ e, analyze_data_statistics df = .error e →
      e = .keyError ∨ e = .indexError) := by
  constructor
  · constructor
    · rintro ⟨st, hst⟩
      exact analyze_ok_cond hst
    · rintro ⟨hne, hcols⟩
      exact ⟨_, analyze_eq df (hcols _ (by simp [required_cols]))
        (hcols _ (by simp [required_cols])) (hcols _ (by simp [required_cols]))
        (hcols _ (by simp [required_cols])) (hcols _ (by simp [required_cols]))
        (hcols _ (by simp [required_cols])) (hcols _ (by simp [required_cols]))
        (hcols _ (by simp [required_cols])) hne⟩
  · intro e he
    exact analyze_error_kind he

/-- Witness for the amended C3: the empty frame fails with IndexError,
and the success characterization applies to it. -/
theorem analyze_failure_characterization_witness :
    PyErr.indexError = PyErr.keyError ∨ PyErr.indexError = PyErr.indexError :=
  (analyze_failure_characterization (mkDf [])).2 .indexError rfl

/-! ## C9: determinism of the statistics engine -/

/-- C9: the engine is a pure function of the frame it is given: equal
inputs produce equal reports, and the input frame is a value that the
computation cannot mutate (immutability is by construction in this
embedding; the theorem records that the report depends on nothing but
the series). -/
theorem summarize_deterministic (df1 df2 : DataFrame) (h : df1 = df2) :
    analyze_data_statistics df1 = analyze_data_statistics df2 := by
  rw [h]

/-- Witness: determinism at a concrete frame. -/
theorem summarize_deterministic_witness :
    analyze_data_statistics dfTwo = analyze_data_statistics dfTwo :=
  summarize_deterministic dfTwo dfTwo rfl


/-! ## C5 and C6: the anomaly tally -/

lemma colOf_mkDf_append (rs : List Row) (r : Row) (c : String) :
    colOf (mkDf (rs ++ [r])) c = colOf (mkDf rs) c ++ [cellVal r c] := by
  simp [colOf, mkDf]

lemma cntP_append (xs ys : List (Option ℚ)) (p : ℚ → Bool) :
    cntP (xs ++ ys) p = cntP xs p + cntP ys p := by
  unfold cntP
  exact List.countP_append _ _ _

lemma mkDf_required (rs : List Row) : ∀ c ∈ required_cols, c ∈ (mkDf rs).cols := by
  intro c hc
  fin_cases hc <;> simp [mkDf, all_cols]

lemma analyze_ok_shape {df : DataFrame} {st : List (String × Option ℚ)}
    (h : analyze_data_statistics df = .ok st) :
    st = stats_of df.rows.length ((colOf df "timestamp").headD none)
          ((colOf df "timestamp").getLast?.getD none)
          (colOf df "heart_rate") (colOf df "spo2") (colOf df "temperature")
          (colOf df "systolic_bp") (colOf df "diastolic_bp")
          (colOf df "stress_level") (colOf df "steps") := by
  obtain ⟨hne, hcols⟩ := analyze_ok_cond h
  have heq := analyze_eq df (hcols _ (by simp [required_cols]))
    (hcols _ (by simp [required_cols])) (hcols _ (by simp [required_cols]))
    (hcols _ (by simp [required_cols])) (hcols _ (by simp [required_cols]))
    (hcols _ (by simp [required_cols])) (hcols _ (by simp [required_cols]))
    (hcols _ (by simp [required_cols])) hne
  rw [h] at heq
  injection heq with heq

/-- A baseline reading satisfying no detection rule. -/
def rowBase : Row :=
  mkRow 0 70 97 36.5 120 80 100 3 7

/-- A reading satisfying exactly two rule conditions: systolic_bp = 140
(> 130, high_bp) and stress_level = 7 (> 6, high_stress). -/
def rowTwoRules : Row :=
  mkRow 2 70 97 36.5 140 90 100 7 7

/-- C5: the report's total anomaly count is the sum of its eight
per-rule counts, and appending a reading that satisfies two rule
conditions (high_bp and high_stress) raises the total by exactly 2,
not 1. -/
theorem total_anomalies_sums_rule_counts :
    (∀ (df : DataFrame) (st : List (String × Option ℚ)),
      analyze_data_statistics df = .ok st →
      ∃ c1 c2 c3 c4 c5 c6 c7 c8 : ℕ,
        st.lookup "anomalies.high_heart_rate" = some (some (c1 : ℚ)) ∧
        st.lookup "anomalies.low_heart_rate" = some (some (c2 : ℚ)) ∧
        st.lookup "anomalies.low_oxygen" = some (some (c3 : ℚ)) ∧
        st.lookup "anomalies.high_temp" = some (some (c4 : ℚ)) ∧
        st.lookup "anomalies.low_temp" = some (some (c5 : ℚ)) ∧
        st.lookup "anomalies.high_bp" = some (some (c6 : ℚ)) ∧
        st.lookup "anomalies.low_bp" = some (some (c7 : ℚ)) ∧
        st.lookup "anomalies.high_stress" = some (some (c8 : ℚ)) ∧
        st.lookup "total_anomalies"
          = some (some ((c1 + c2 + c3 + c4 + c5 + c6 + c7 + c8 : ℕ) : ℚ))) ∧
    (∀ rs : List Row, rs ≠ [] →
      ∃ st st2 q, analyze_data_statistics (mkDf rs) = .ok st ∧
        analyze_data_statistics (mkDf (rs ++ [rowTwoRules])) = .ok st2 ∧
        st.lookup "total_anomalies" = some (some q) ∧
        st2.lookup "total_anomalies" = some (some (q + 2))) := by
  constructor
  · intro df st h
    have hsh := analyze_ok_shape h
    subst hsh
    refine ⟨cntP (colOf df "heart_rate") (fun v => 120 < v),
      cntP (colOf df "heart_rate") (fun v => v < 60),
      cntP (colOf df "spo2") (fun v => v < 95),
      cntP (colOf df "temperature") (fun v => (37.2 : ℚ) < v),
      cntP (colOf df "temperature") (fun v => v < (36.1 : ℚ)),
      cntP (colOf df "systolic_bp") (fun v => 130 < v),
      cntP (colOf df "systolic_bp") (fun v => v < 110),
      cntP (colOf df "stress_level") (fun v => 6 < v),
      ?_, ?_, ?_, ?_, ?_, ?_, ?_, ?_, ?_⟩ <;>
      simp [stats_of, anomaly_counts, List.lookup]
    ring
  · intro rs hne
    have h1 := analyze_eq (mkDf rs) (by simp [mkDf, all_cols]) (by simp [mkDf, all_cols])
      (by simp [mkDf, all_cols]) (by simp [mkDf, all_cols]) (by simp [mkDf, all_cols])
      (by simp [mkDf, all_cols]) (by simp [mkDf, all_cols]) (by simp [mkDf, all_cols])
      (by simpa [mkDf] using hne)
    have h2 := analyze_eq (mkDf (rs ++ [rowTwoRules])) (by simp [mkDf, all_cols])
      (by simp [mkDf, all_cols]) (by simp [mkDf, all_cols]) (by simp [mkDf, all_cols])
      (by simp [mkDf, all_cols]) (by simp [mkDf, all_cols]) (by simp [mkDf, all_cols])
      (by simp [mkDf, all_cols]) (by simp [mkDf])
    have hv1 : cntP [cellVal rowTwoRules "heart_rate"] (fun v => 120 < v) = 0 := by
      simp [rowTwoRules, mkRow, cellVal, cntP, List.lookup]
      norm_num
    have hv2 : cntP [cellVal rowTwoRules "heart_rate"] (fun v => v < 60) = 0 := by
      simp [rowTwoRules, mkRow, cellVal, cntP, List.lookup]
      norm_num
    have hv3 : cntP [cellVal rowTwoRules "spo2"] (fun v => v < 95) = 0 := by
      simp [rowTwoRules, mkRow, cellVal, cntP, List.lookup]
      norm_num
    have hv4 : cntP [cellVal rowTwoRules "temperature"] (fun v => (37.2 : ℚ) < v) = 0 := by
      simp [rowTwoRules, mkRow, cellVal, cntP, List.lookup]
      norm_num
    have hv5 : cntP [cellVal rowTwoRules "temperature"] (fun v => v < (36.1 : ℚ)) = 0 := by
      simp [rowTwoRules, mkRow, cellVal, cntP, List.lookup]
      norm_num
    have hv6 : cntP [cellVal rowTwoRules "systolic_bp"] (fun v => 130 < v) = 1 := by
      simp [rowTwoRules, mkRow, cellVal, cntP, List.lookup]
      norm_num
    have hv7 : cntP [cellVal rowTwoRules "systolic_bp"] (fun v => v < 110) = 0 := by
      simp [rowTwoRules, mkRow, cellVal, cntP, List.lookup]
      norm_num
    have hv8 : cntP [cellVal rowTwoRules "stress_level"] (fun v => 6 < v) = 1 := by
      simp [rowTwoRules, mkRow, cellVal, cntP, List.lookup]
      norm_num
    refine ⟨_, _,
      ((cntP (colOf (mkDf rs) "heart_rate") (fun v => 120 < v)
        + cntP (colOf (mkDf rs) "heart_rate") (fun v => v < 60)
        + cntP (colOf (mkDf rs) "spo2") (fun v => v < 95)
        + cntP (colOf (mkDf rs) "temperature") (fun v => (37.2 : ℚ) < v)
        + cntP (colOf (mkDf rs) "temperature") (fun v => v < (36.1 : ℚ))
        + cntP (colOf (mkDf rs) "systolic_bp") (fun v => 130 < v)
        + cntP (colOf (mkDf rs) "systolic_bp") (fun v => v < 110)
        + cntP (colOf (mkDf rs) "stress_level") (fun v => 6 < v) : ℕ) : ℚ),
      h1, h2, ?_, ?_⟩
    · simp [stats_of, anomaly_counts, List.lookup]
      ring
    · simp only [stats_of, anomaly_counts, List.lookup]
      simp [colOf_mkDf_append, cntP_append, hv1, hv2, hv3, hv4, hv5, hv6, hv7, hv8]
      ring


/-- Witness for C5 at a concrete one-reading series. -/
theorem total_anomalies_sums_rule_counts_witness :
    ∃ st st2 q, analyze_data_statistics (mkDf [rowBase]) = .ok st ∧
      analyze_data_statistics (mkDf ([rowBase] ++ [rowTwoRules])) = .ok st2 ∧
      st.lookup "total_anomalies" = some (some q) ∧
      st2.lookup "total_anomalies" = some (some (q + 2)) :=
  total_anomalies_sums_rule_counts.2 [rowBase] (by simp)

/-- A reading just above the high_heart_rate threshold. -/
def row121 : Row :=
  mkRow 3 121 97 36.5 120 80 100 3 7

/-- A reading exactly at the high_heart_rate boundary. -/
def row120 : Row :=
  mkRow 3 120 97 36.5 120 80 100 3 7

/-- C6: the detection thresholds are strict: appending a reading with
heart_rate = 121 to any non-empty series raises the high_heart_rate
counter by exactly 1, while appending one with heart_rate = 120 leaves
it unchanged (boundary excluded). -/
theorem heart_rate_threshold_strict (rs : List Row) (r : Row) (hne : rs ≠ []) :
    (cellVal r "heart_rate" = some 121 →
      ∃ st st2 k, analyze_data_statistics (mkDf rs) = .ok st ∧
        analyze_data_statistics (mkDf (rs ++ [r])) = .ok st2 ∧
        st.lookup "anomalies.high_heart_rate" = some (some (k : ℚ)) ∧
        st2.lookup "anomalies.high_heart_rate" = some (some ((k : ℚ) + 1))) ∧
    (cellVal r "heart_rate" = some 120 →
      ∃ st st2 k, analyze_data_statistics (mkDf rs) = .ok st ∧
        analyze_data_statistics (mkDf (rs ++ [r])) = .ok st2 ∧
        st.lookup "anomalies.high_heart_rate" = some (some (k : ℚ)) ∧
        st2.lookup "anomalies.high_heart_rate" = some (some (k : ℚ))) := by
  have h1 := analyze_eq (mkDf rs) (by simp [mkDf, all_cols]) (by simp [mkDf, all_cols])
    (by simp [mkDf, all_cols]) (by simp [mkDf, all_cols]) (by simp [mkDf, all_cols])
    (by simp [mkDf, all_cols]) (by simp [mkDf, all_cols]) (by simp [mkDf, all_cols])
    (by simpa [mkDf] using hne)
  have h2 := analyze_eq (mkDf (rs ++ [r])) (by simp [mkDf, all_cols])
    (by simp [mkDf, all_cols]) (by simp [mkDf, all_cols]) (by simp [mkDf, all_cols])
    (by simp [mkDf, all_cols]) (by simp [mkDf, all_cols]) (by simp [mkDf, all_cols])
    (by simp [mkDf, all_cols]) (by simp [mkDf])
  constructor
  · intro hcell
    have hv : cntP [cellVal r "heart_rate"] (fun v => 120 < v) = 1 := by
      rw [hcell]
      simp [cntP]
      norm_num
    refine ⟨_, _, cntP (colOf (mkDf rs) "heart_rate") (fun v => 120 < v), h1, h2, ?_, ?_⟩
    · simp [stats_of, anomaly_counts, List.lookup]
    · simp only [stats_of, anomaly_counts, List.lookup]
      simp [colOf_mkDf_append, cntP_append, hv]
  · intro hcell
    have hv : cntP [cellVal r "heart_rate"] (fun v => 120 < v) = 0 := by
      rw [hcell]
      simp [cntP]
    refine ⟨_, _, cntP (colOf (mkDf rs) "heart_rate") (fun v => 120 < v), h1, h2, ?_, ?_⟩
    · simp [stats_of, anomaly_counts, List.lookup]
    · simp only [stats_of, anomaly_counts, List.lookup]
      simp [colOf_mkDf_append, cntP_append, hv]

/-- Witness for C6 at concrete series: one reading at 121, one at 120. -/
theorem heart_rate_threshold_strict_witness :
    (∃ st st2 k, analyze_data_statistics (mkDf [rowBase]) = .ok st ∧
      analyze_data_statistics (mkDf ([rowBase] ++ [row121])) = .ok st2 ∧
      st.lookup "anomalies.high_heart_rate" = some (some (k : ℚ)) ∧
      st2.lookup "anomalies.high_heart_rate" = some (some ((k : ℚ) + 1))) ∧
    (∃ st st2 k, analyze_data_statistics (mkDf [rowBase]) = .ok st ∧
      analyze_data_statistics (mkDf ([rowBase] ++ [row120])) = .ok st2 ∧
      st.lookup "anomalies.high_heart_rate" = some (some (k : ℚ)) ∧
      st2.lookup "anomalies.high_heart_rate" = some (some (k : ℚ))) :=
  ⟨(heart_rate_threshold_strict [rowBase] row121 (by simp)).1 rfl,
   (heart_rate_threshold_strict [rowBase] row120 (by simp)).2 rfl⟩


/-! ## Generator claims: random sources and profile lookup lemmas -/

/-- A simple valid random source: every bounded draw returns its lower
bound, the anomaly trial draw is 1/2, and a weighted choice picks the
first candidate. -/
def gZero : RandSrc :=
  ⟨1/2, fun pop _ => pop.headD "", fun a _ => a, fun a _ => a⟩

lemma gZero_valid : gZero.Valid := by
  refine ⟨⟨by norm_num [gZero], by norm_num [gZero]⟩, ?_, ?_, ?_⟩
  · intro pop w hne
    cases pop with
    | nil => exact absurd rfl hne
    | cons x xs => simp [gZero]
  · intro a b h
    exact ⟨le_refl a, h⟩
  · intro a b h
    exact ⟨le_refl a, h⟩

lemma lookup_mem {β : Type} {l : List (String × β)} {a : String} {b : β}
    (h : l.lookup a = some b) : (a, b) ∈ l := by
  induction l with
  | nil => cases h
  | cons hd tl ih =>
    rw [List.lookup_cons] at h
    by_cases he : a = hd.1
    · subst he
      simp at h
      simp [← h]
    · have : (a == hd.1) = false := beq_false_of_ne he
      rw [this] at h
      exact List.mem_cons_of_mem _ (ih h)

lemma lookup_isSome_iff {β : Type} {l : List (String × β)} {a : String} :
    (l.lookup a).isSome = true ↔ a ∈ l.map Prod.fst := by
  induction l with
  | nil => simp [List.lookup]
  | cons hd tl ih =>
    rw [List.lookup_cons]
    by_cases he : a = hd.1
    · subst he
      simp
    · have hb : (a == hd.1) = false := beq_false_of_ne he
      rw [hb]
      simp [he, ih]

/-- C4 (claim as stated is false): forcing the unknown profile name
"bogus" fails with the untyped `KeyError` of `self.anomaly_types[...]`,
not with a typed `ConfigError`. -/
theorem forced_unknown_not_configerror :
    generate_reading gZero 0 (some "bogus") = .error .keyError ∧
    anomaly_types.lookup "bogus" = none ∧
    PyErr.keyError ≠ PyErr.configError := by
  exact ⟨rfl, rfl, by decide⟩

/-- C4 (amended): for every random source and timestamp, forcing a
non-empty anomaly name that is not a configured profile fails with a
`KeyError` — the builtin dict exception, there is no typed `ConfigError`
in the code — and produces no reading.  (A forced empty string is falsy
in Python and falls back to random profile selection instead.) -/
theorem forced_unknown_anomaly_keyerror (g : RandSrc) (t : ℚ) (a : String)
    (hne : a ≠ "") (hunk : anomaly_types.lookup a = none) :
    generate_reading g t (some a) = .error .keyError := by
  simp [generate_reading, reading_anomaly, hne, hunk]

/-- Witness for the amended C4. -/
theorem forced_unknown_anomaly_keyerror_witness :
    generate_reading gZero 0 (some "mystery") = .error .keyError :=
  forced_unknown_anomaly_keyerror gZero 0 "mystery" (by decide) rfl

/-- C7: forcing "low_oxygen" applies that profile unconditionally —
whatever the 15% trial draw was — and the reading's spo2 is an integer
drawn from [85, 94]. -/
theorem forced_low_oxygen_spo2_range (g : RandSrc) (t : ℚ) (hg : g.Valid) :
    ∃ r v, generate_reading g t (some "low_oxygen") = .ok r ∧
      reading_anomaly g (some "low_oxygen") = some "low_oxygen" ∧
      r.lookup "spo2" = some v ∧ (85 : ℚ) ≤ v ∧ v ≤ 94 := by
  obtain ⟨hr0, hpick, hint, huni⟩ := hg
  have hgen : generate_reading g t (some "low_oxygen") =
      .ok (setKey (base_data g t) "spo2" (randintR g (.int 85, .int 94))) := by
    simp [generate_reading, reading_anomaly, anomaly_types, apply_anomaly, apply_one, List.lookup]
  obtain ⟨hl, hu⟩ := hint 85 94 (by decide)
  refine ⟨_, randintR g (.int 85, .int 94), hgen, ?_, ?_, ?_, ?_⟩
  · simp [reading_anomaly]
  · simp [setKey, base_data, List.lookup]
  · unfold randintR RV.toZ
    exact_mod_cast hl
  · unfold randintR RV.toZ
    exact_mod_cast hu

/-- Witness for C7 at the concrete source `gZero`. -/
theorem forced_low_oxygen_spo2_range_witness :
    ∃ r v, generate_reading gZero 0 (some "low_oxygen") = .ok r ∧
      reading_anomaly gZero (some "low_oxygen") = some "low_oxygen" ∧
      r.lookup "spo2" = some v ∧ (85 : ℚ) ≤ v ∧ v ≤ 94 :=
  forced_low_oxygen_spo2_range gZero 0 gZero_valid


/-! ## C10: the reading field set is invariant -/

lemma setKey_keys {d : List (String × ℚ)} {k : String} {v : ℚ}
    (h : (d.lookup k).isSome = true) :
    (setKey d k v).map Prod.fst = d.map Prod.fst := by
  unfold setKey
  rw [if_pos h, List.map_map]
  apply List.map_congr_left
  intro kv _
  by_cases hk : kv.1 = k <;> simp [hk]

lemma apply_one_keys (g : RandSrc) (d : List (String × ℚ)) (kv : String × CfgVal)
    (h : kv.1 = "probability" ∨ kv.1 ∈ d.map Prod.fst) :
    (apply_one g d kv).map Prod.fst = d.map Prod.fst := by
  unfold apply_one
  rcases h with h | h
  · rw [if_pos h]
  · by_cases hp : kv.1 = "probability"
    · rw [if_pos hp]
    · rw [if_neg hp]
      have hs : (d.lookup kv.1).isSome = true := lookup_isSome_iff.mpr h
      cases hcv : kv.2 with
      | range lo hi =>
        cases lo with
        | int n => exact setKey_keys hs
        | flt q => exact setKey_keys hs
      | prob p => rfl

lemma apply_anomaly_keys (g : RandSrc) (cfg : List (String × CfgVal)) :
    ∀ d : List (String × ℚ),
      (∀ kv ∈ cfg, kv.1 = "probability" ∨ kv.1 ∈ d.map Prod.fst) →
      (apply_anomaly g cfg d).map Prod.fst = d.map Prod.fst := by
  induction cfg with
  | nil =>
    intro d _
    rfl
  | cons hd tl ih =>
    intro d hcond
    have hstep : (apply_one g d hd).map Prod.fst = d.map Prod.fst :=
      apply_one_keys g d hd (hcond hd (by simp))
    have hrest : (apply_anomaly g tl (apply_one g d hd)).map Prod.fst
        = (apply_one g d hd).map Prod.fst := by
      apply ih
      intro kv hkv
      rw [hstep]
      exact hcond kv (by simp [hkv])
    have hcons : apply_anomaly g (hd :: tl) d = apply_anomaly g tl (apply_one g d hd) := by
      simp [apply_anomaly]
    rw [hcons, hrest, hstep]

/-- Every override metric of every configured profile is a normal-profile
metric, and the `'probability'` entry is the only other key. -/
lemma anomaly_types_wf :
    ∀ p ∈ anomaly_types, ∀ kv ∈ p.2, kv.1 = "probability" ∨ kv.1 ∈ all_cols := by
  decide

/-- C10: whatever the random source, the timestamp and the forcing
argument, a successfully generated reading has exactly the nine fields
of the base data, in order — anomaly application only overwrites values
of existing fields, and a profile's `'probability'` entry is never
copied into the reading. -/
theorem reading_field_set (g : RandSrc) (t : ℚ) (force : Option String)
    (r : List (String × ℚ)) (h : generate_reading g t force = .ok r) :
    r.map Prod.fst = all_cols ∧ "probability" ∉ r.map Prod.fst := by
  suffices hk : r.map Prod.fst = all_cols by
    refine ⟨hk, ?_⟩
    rw [hk]
    decide
  unfold generate_reading at h
  cases ha : reading_anomaly g force with
  | none =>
    rw [ha] at h
    injection h with h
    subst h
    rfl
  | some a =>
    rw [ha] at h
    simp only at h
    split_ifs at h with hguard
    · cases hl : anomaly_types.lookup a with
      | none =>
        rw [hl] at h
        cases h
      | some cfg =>
        rw [hl] at h
        injection h with h
        subst h
        have hbase : (base_data g t).map Prod.fst = all_cols := rfl
        rw [← hbase]
        apply apply_anomaly_keys
        intro kv hkv
        rw [hbase]
        exact anomaly_types_wf (a, cfg) (lookup_mem hl) kv hkv
    · injection h with h
      subst h
      rfl

/-- Witness for C10: the field set of a concrete generated reading with
a forced anomaly. -/
theorem reading_field_set_witness :
    (setKey (base_data gZero 0) "spo2"
        (randintR gZero (RV.int 85, RV.int 94))).map Prod.fst = all_cols ∧
    "probability" ∉ (setKey (base_data gZero 0) "spo2"
        (randintR gZero (RV.int 85, RV.int 94))).map Prod.fst :=
  reading_field_set gZero 0 (some "low_oxygen") _
    (by simp [generate_reading, reading_anomaly, anomaly_types, apply_anomaly, apply_one,
      List.lookup])


/-! ## C8: range containment of generated readings -/

/-- An integer value within inclusive integer bounds. -/
def isIntIn (lo hi : ℤ) (v : ℚ) : Prop :=
  ∃ n : ℤ, v = (n : ℚ) ∧ lo ≤ n ∧ n ≤ hi

/-- A one-decimal value within inclusive rational bounds. -/
def isTenthIn (lo hi : ℚ) (v : ℚ) : Prop :=
  (∃ n : ℤ, v = (n : ℚ) / 10) ∧ lo ≤ v ∧ v ≤ hi

lemma pyRound1_eq (q : ℚ) :
    pyRound1 q =
      (((if q * 10 - (⌊q * 10⌋ : ℚ) < 1 / 2 then (⌊q * 10⌋ : ℤ)
         else if 1 / 2 < q * 10 - (⌊q * 10⌋ : ℚ) then ⌊q * 10⌋ + 1
         else if ⌊q * 10⌋ % 2 = 0 then ⌊q * 10⌋ else ⌊q * 10⌋ + 1) : ℤ) : ℚ) / 10 :=
  rfl

/-- Rounding to one decimal keeps a value inside one-decimal bounds. -/
lemma pyRound1_in {a b x : ℚ} {ka kb : ℤ} (ha : a = (ka : ℚ) / 10)
    (hb : b = (kb : ℚ) / 10) (h1 : a ≤ x) (h2 : x ≤ b) :
    isTenthIn a b (pyRound1 x) := by
  subst ha
  subst hb
  rw [pyRound1_eq]
  have hka : (ka : ℚ) ≤ x * 10 := by
    rw [div_le_iff₀ (by norm_num : (0 : ℚ) < 10)] at h1
    linarith
  have hkb : x * 10 ≤ (kb : ℚ) := by
    rw [le_div_iff₀ (by norm_num : (0 : ℚ) < 10)] at h2
    linarith
  have hfl : ka ≤ ⌊x * 10⌋ := Int.le_floor.mpr hka
  have hfu : ⌊x * 10⌋ ≤ kb := by
    have h3 := Int.floor_le_floor (α := ℚ) hkb
    simpa using h3
  have hxf : (⌊x * 10⌋ : ℚ) ≤ x * 10 := Int.floor_le _
  have hRlow : ka ≤ (if x * 10 - (⌊x * 10⌋ : ℚ) < 1 / 2 then (⌊x * 10⌋ : ℤ)
      else if 1 / 2 < x * 10 - (⌊x * 10⌋ : ℚ) then ⌊x * 10⌋ + 1
      else if ⌊x * 10⌋ % 2 = 0 then ⌊x * 10⌋ else ⌊x * 10⌋ + 1) := by
    split_ifs <;> omega
  have hRhigh : (if x * 10 - (⌊x * 10⌋ : ℚ) < 1 / 2 then (⌊x * 10⌋ : ℤ)
      else if 1 / 2 < x * 10 - (⌊x * 10⌋ : ℚ) then ⌊x * 10⌋ + 1
      else if ⌊x * 10⌋ % 2 = 0 then ⌊x * 10⌋ else ⌊x * 10⌋ + 1) ≤ kb := by
    split_ifs with hc1 hc2 hc3
    · exact hfu
    · have hlt : (⌊x * 10⌋ : ℚ) < (kb : ℚ) := by linarith
      have hlt2 : ⌊x * 10⌋ < kb := by exact_mod_cast hlt
      omega
    · exact hfu
    · have heq : x * 10 - (⌊x * 10⌋ : ℚ) = 1 / 2 :=
        le_antisymm (not_lt.mp hc2) (not_lt.mp hc1)
      have hlt : (⌊x * 10⌋ : ℚ) < (kb : ℚ) := by linarith
      have hlt2 : ⌊x * 10⌋ < kb := by exact_mod_cast hlt
      omega
  refine ⟨⟨_, rfl⟩, ?_, ?_⟩
  · apply (div_le_div_iff_of_pos_right (by norm_num : (0 : ℚ) < 10)).mpr
    exact_mod_cast hRlow
  · apply (div_le_div_iff_of_pos_right (by norm_num : (0 : ℚ) < 10)).mpr
    exact_mod_cast hRhigh

/-- A valid `randint` draw over int endpoints is an integer in range. -/
lemma randintR_ok {g : RandSrc} (hg : g.Valid) {lo hi : ℤ} (h : lo ≤ hi) :
    isIntIn lo hi (randintR g (.int lo, .int hi)) := by
  obtain ⟨_, _, hint, _⟩ := hg
  obtain ⟨h1, h2⟩ := hint lo hi h
  exact ⟨g.randint lo hi, rfl, h1, h2⟩

/-- A valid rounded `uniform` draw is a one-decimal value in range. -/
lemma uniformR_ok {g : RandSrc} (hg : g.Valid) (lo hi : RV) {a b : ℚ} {ka kb : ℤ}
    (h1 : lo.toQ = a) (h2 : hi.toQ = b) (ha : a = (ka : ℚ) / 10)
    (hb : b = (kb : ℚ) / 10) (hle : a ≤ b) :
    isTenthIn a b (uniformR g (lo, hi)) := by
  obtain ⟨_, _, _, huni⟩ := hg
  unfold uniformR
  simp only [h1, h2]
  obtain ⟨u1, u2⟩ := huni a b hle
  exact pyRound1_in ha hb u1 u2

/-- The metric names of the normal profile (every reading field except
the timestamp). -/
def metric_names : List String :=
  ["heart_rate", "spo2", "temperature", "systolic_bp", "diastolic_bp",
   "steps", "stress_level", "sleep_hours"]

/-- Containment in a metric's normal range, with the sampling kind the
base generation applies to that metric (`randint` for the int-typed
metrics, rounded `uniform` for spo2, temperature and sleep_hours). -/
def baseOk : String → ℚ → Prop
  | "heart_rate", v => isIntIn 60 100 v
  | "spo2", v => isTenthIn 95 100 v
  | "temperature", v => isTenthIn 36.1 37.2 v
  | "systolic_bp", v => isIntIn 110 130 v
  | "diastolic_bp", v => isIntIn 70 85 v
  | "steps", v => isIntIn 0 150 v
  | "stress_level", v => isIntIn 1 5 v
  | "sleep_hours", v => isTenthIn 6.5 9.0 v
  | _, _ => False

/-- Containment in profile `a`'s override range for metric `m`, with the
kind the override loop dispatches on (`isinstance(value_range[0], int)`). -/
def overridesOk (a m : String) (v : ℚ) : Prop :=
  match (anomaly_types.lookup a).bind (fun cfg => cfg.lookup m) with
  | some (.range lo hi) =>
      match lo with
      | .int n => isIntIn n hi.toZ v
      | .flt q => isTenthIn q hi.toQ v
  | _ => False

/-- A metric value is valid when it lies in the normal range or, when a
profile was chosen and overrides the metric, in that override range. -/
def metric_ok (chosen : Option String) (m : String) (v : ℚ) : Prop :=
  baseOk m v ∨ ∃ a, chosen = some a ∧ overridesOk a m v

lemma base_hr {g : RandSrc} (hg : g.Valid) :
    baseOk "heart_rate" (randintR g (nrange "heart_rate")) :=
  randintR_ok hg (by decide)

lemma base_sp {g : RandSrc} (hg : g.Valid) :
    baseOk "spo2" (uniformR g (nrange "spo2")) :=
  uniformR_ok hg (.int 95) (.int 100) (by norm_num [RV.toQ]) (by norm_num [RV.toQ])
    (by norm_num : (95 : ℚ) = ((950 : ℤ) : ℚ) / 10)
    (by norm_num : (100 : ℚ) = ((1000 : ℤ) : ℚ) / 10) (by norm_num)

lemma base_tp {g : RandSrc} (hg : g.Valid) :
    baseOk "temperature" (uniformR g (nrange "temperature")) :=
  uniformR_ok hg (.flt 36.1) (.flt 37.2) (by norm_num [RV.toQ]) (by norm_num [RV.toQ])
    (by norm_num : (36.1 : ℚ) = ((361 : ℤ) : ℚ) / 10)
    (by norm_num : (37.2 : ℚ) = ((372 : ℤ) : ℚ) / 10) (by norm_num)

lemma base_sbp {g : RandSrc} (hg : g.Valid) :
    baseOk "systolic_bp" (randintR g (nrange "systolic_bp")) :=
  randintR_ok hg (by decide)

lemma base_dbp {g : RandSrc} (hg : g.Valid) :
    baseOk "diastolic_bp" (randintR g (nrange "diastolic_bp")) :=
  randintR_ok hg (by decide)

lemma base_steps {g : RandSrc} (hg : g.Valid) :
    baseOk "steps" (randintR g (nrange "steps")) :=
  randintR_ok hg (by decide)

lemma base_stress {g : RandSrc} (hg : g.Valid) :
    baseOk "stress_level" (randintR g (nrange "stress_level")) :=
  randintR_ok hg (by decide)

lemma base_sleep {g : RandSrc} (hg : g.Valid) :
    baseOk "sleep_hours" (uniformR g (nrange "sleep_hours")) :=
  uniformR_ok hg (.flt 6.5) (.flt 9.0) (by norm_num [RV.toQ]) (by norm_num [RV.toQ])
    (by norm_num : (6.5 : ℚ) = ((65 : ℤ) : ℚ) / 10)
    (by norm_num : (9.0 : ℚ) = ((90 : ℤ) : ℚ) / 10) (by norm_num)


/-- C8: every field of a successfully generated reading lies in its
normal range — with integer draws for the int-sampled metrics and
one-decimal draws for the uniform-sampled ones, bounds inclusive — or,
when the chosen anomaly profile overrides the metric, in that profile's
override range with the kind its endpoints dictate.  Never outside the
union of the two. -/
theorem reading_range_containment (g : RandSrc) (t : ℚ) (force : Option String)
    (r : List (String × ℚ)) (hg : g.Valid) (h : generate_reading g t force = .ok r) :
    ∀ m ∈ metric_names, ∃ v, r.lookup m = some v ∧
      metric_ok (reading_anomaly g force) m v := by
  unfold generate_reading at h
  cases ha : reading_anomaly g force with
  | none =>
    rw [ha] at h
    injection h with h
    subst h
    intro m hm
    fin_cases hm
    · exact ⟨_, rfl, Or.inl (base_hr hg)⟩
    · exact ⟨_, rfl, Or.inl (base_sp hg)⟩
    · exact ⟨_, rfl, Or.inl (base_tp hg)⟩
    · exact ⟨_, rfl, Or.inl (base_sbp hg)⟩
    · exact ⟨_, rfl, Or.inl (base_dbp hg)⟩
    · exact ⟨_, rfl, Or.inl (base_steps hg)⟩
    · exact ⟨_, rfl, Or.inl (base_stress hg)⟩
    · exact ⟨_, rfl, Or.inl (base_sleep hg)⟩
  | some a =>
    rw [ha] at h
    simp only at h
    split_ifs at h with hguard
    · cases hl : anomaly_types.lookup a with
      | none =>
        rw [hl] at h
        cases h
      | some cfg =>
        rw [hl] at h
        injection h with h
        subst h
        have hmem := lookup_mem hl
        simp only [anomaly_types, List.mem_cons, List.not_mem_nil, or_false,
          Prod.mk.injEq] at hmem
        rcases hmem with hp | hp | hp | hp | hp | hp | hp | hp | hp | hp <;>
          obtain ⟨rfl, rfl⟩ := hp
        · intro m hm
          fin_cases hm
          · exact ⟨_, rfl, Or.inr ⟨_, rfl, randintR_ok hg (by decide)⟩⟩
          · exact ⟨_, rfl, Or.inl (base_sp hg)⟩
          · exact ⟨_, rfl, Or.inl (base_tp hg)⟩
          · exact ⟨_, rfl, Or.inl (base_sbp hg)⟩
          · exact ⟨_, rfl, Or.inl (base_dbp hg)⟩
          · exact ⟨_, rfl, Or.inl (base_steps hg)⟩
          · exact ⟨_, rfl, Or.inl (base_stress hg)⟩
          · exact ⟨_, rfl, Or.inl (base_sleep hg)⟩
        · intro m hm
          fin_cases hm
          · exact ⟨_, rfl, Or.inr ⟨_, rfl, randintR_ok hg (by decide)⟩⟩
          · exact ⟨_, rfl, Or.inl (base_sp hg)⟩
          · exact ⟨_, rfl, Or.inl (base_tp hg)⟩
          · exact ⟨_, rfl, Or.inl (base_sbp hg)⟩
          · exact ⟨_, rfl, Or.inl (base_dbp hg)⟩
          · exact ⟨_, rfl, Or.inl (base_steps hg)⟩
          · exact ⟨_, rfl, Or.inl (base_stress hg)⟩
          · exact ⟨_, rfl, Or.inl (base_sleep hg)⟩
        · intro m hm
          fin_cases hm
          · exact ⟨_, rfl, Or.inl (base_hr hg)⟩
          · exact ⟨_, rfl, Or.inr ⟨_, rfl, randintR_ok hg (by decide)⟩⟩
          · exact ⟨_, rfl, Or.inl (base_tp hg)⟩
          · exact ⟨_, rfl, Or.inl (base_sbp hg)⟩
          · exact ⟨_, rfl, Or.inl (base_dbp hg)⟩
          · exact ⟨_, rfl, Or.inl (base_steps hg)⟩
          · exact ⟨_, rfl, Or.inl (base_stress hg)⟩
          · exact ⟨_, rfl, Or.inl (base_sleep hg)⟩
        · intro m hm
          fin_cases hm
          · exact ⟨_, rfl, Or.inl (base_hr hg)⟩
          · exact ⟨_, rfl, Or.inl (base_sp hg)⟩
          · exact ⟨_, rfl, Or.inr ⟨_, rfl, uniformR_ok hg (.flt 37.5) (.flt 39.5)
              (by norm_num [RV.toQ]) (by norm_num [RV.toQ])
              (by norm_num : (37.5 : ℚ) = ((375 : ℤ) : ℚ) / 10)
              (by norm_num : (39.5 : ℚ) = ((395 : ℤ) : ℚ) / 10) (by norm_num [RV.toQ])⟩⟩
          · exact ⟨_, rfl, Or.inl (base_sbp hg)⟩
          · exact ⟨_, rfl, Or.inl (base_dbp hg)⟩
          · exact ⟨_, rfl, Or.inl (base_steps hg)⟩
          · exact ⟨_, rfl, Or.inl (base_stress hg)⟩
          · exact ⟨_, rfl, Or.inl (base_sleep hg)⟩
        · intro m hm
          fin_cases hm
          · exact ⟨_, rfl, Or.inl (base_hr hg)⟩
          · exact ⟨_, rfl, Or.inl (base_sp hg)⟩
          · exact ⟨_, rfl, Or.inr ⟨_, rfl, uniformR_ok hg (.flt 35.0) (.flt 36.0)
              (by norm_num [RV.toQ]) (by norm_num [RV.toQ])
              (by norm_num : (35.0 : ℚ) = ((350 : ℤ) : ℚ) / 10)
              (by norm_num : (36.0 : ℚ) = ((360 : ℤ) : ℚ) / 10) (by norm_num [RV.toQ])⟩⟩
          · exact ⟨_, rfl, Or.inl (base_sbp hg)⟩
          · exact ⟨_, rfl, Or.inl (base_dbp hg)⟩
          · exact ⟨_, rfl, Or.inl (base_steps hg)⟩
          · exact ⟨_, rfl, Or.inl (base_stress hg)⟩
          · exact ⟨_, rfl, Or.inl (base_sleep hg)⟩
        · intro m hm
          fin_cases hm
          · exact ⟨_, rfl, Or.inl (base_hr hg)⟩
          · exact ⟨_, rfl, Or.inl (base_sp hg)⟩
          · exact ⟨_, rfl, Or.inl (base_tp hg)⟩
          · exact ⟨_, rfl, Or.inr ⟨_, rfl, randintR_ok hg (by decide)⟩⟩
          · exact ⟨_, rfl, Or.inr ⟨_, rfl, randintR_ok hg (by decide)⟩⟩
          · exact ⟨_, rfl, Or.inl (base_steps hg)⟩
          · exact ⟨_, rfl, Or.inl (base_stress hg)⟩
          · exact ⟨_, rfl, Or.inl (base_sleep hg)⟩
        · intro m hm
          fin_cases hm
          · exact ⟨_, rfl, Or.inl (base_hr hg)⟩
          · exact ⟨_, rfl, Or.inl (base_sp hg)⟩
          · exact ⟨_, rfl, Or.inl (base_tp hg)⟩
          · exact ⟨_, rfl, Or.inr ⟨_, rfl, randintR_ok hg (by decide)⟩⟩
          · exact ⟨_, rfl, Or.inr ⟨_, rfl, randintR_ok hg (by decide)⟩⟩
          · exact ⟨_, rfl, Or.inl (base_steps hg)⟩
          · exact ⟨_, rfl, Or.inl (base_stress hg)⟩
          · exact ⟨_, rfl, Or.inl (base_sleep hg)⟩
        · intro m hm
          fin_cases hm
          · exact ⟨_, rfl, Or.inl (base_hr hg)⟩
          · exact ⟨_, rfl, Or.inl (base_sp hg)⟩
          · exact ⟨_, rfl, Or.inl (base_tp hg)⟩
          · exact ⟨_, rfl, Or.inl (base_sbp hg)⟩
          · exact ⟨_, rfl, Or.inl (base_dbp hg)⟩
          · exact ⟨_, rfl, Or.inl (base_steps hg)⟩
          · exact ⟨_, rfl, Or.inr ⟨_, rfl, randintR_ok hg (by decide)⟩⟩
          · exact ⟨_, rfl, Or.inl (base_sleep hg)⟩
        · intro m hm
          fin_cases hm
          · exact ⟨_, rfl, Or.inl (base_hr hg)⟩
          · exact ⟨_, rfl, Or.inl (base_sp hg)⟩
          · exact ⟨_, rfl, Or.inl (base_tp hg)⟩
          · exact ⟨_, rfl, Or.inl (base_sbp hg)⟩
          · exact ⟨_, rfl, Or.inl (base_dbp hg)⟩
          · exact ⟨_, rfl, Or.inl (base_steps hg)⟩
          · exact ⟨_, rfl, Or.inl (base_stress hg)⟩
          · exact ⟨_, rfl, Or.inr ⟨_, rfl, uniformR_ok hg (.flt 3.0) (.flt 5.5)
              (by norm_num [RV.toQ]) (by norm_num [RV.toQ])
              (by norm_num : (3.0 : ℚ) = ((30 : ℤ) : ℚ) / 10)
              (by norm_num : (5.5 : ℚ) = ((55 : ℤ) : ℚ) / 10) (by norm_num [RV.toQ])⟩⟩
        · intro m hm
          fin_cases hm
          · exact ⟨_, rfl, Or.inl (base_hr hg)⟩
          · exact ⟨_, rfl, Or.inl (base_sp hg)⟩
          · exact ⟨_, rfl, Or.inl (base_tp hg)⟩
          · exact ⟨_, rfl, Or.inl (base_sbp hg)⟩
          · exact ⟨_, rfl, Or.inl (base_dbp hg)⟩
          · exact ⟨_, rfl, Or.inl (base_steps hg)⟩
          · exact ⟨_, rfl, Or.inl (base_stress hg)⟩
          · exact ⟨_, rfl, Or.inr ⟨_, rfl, uniformR_ok hg (.flt 10.0) (.flt 12.0)
              (by norm_num [RV.toQ]) (by norm_num [RV.toQ])
              (by norm_num : (10.0 : ℚ) = ((100 : ℤ) : ℚ) / 10)
              (by norm_num : (12.0 : ℚ) = ((120 : ℤ) : ℚ) / 10) (by norm_num [RV.toQ])⟩⟩
    · injection h with h
      subst h
      intro m hm
      fin_cases hm
      · exact ⟨_, rfl, Or.inl (base_hr hg)⟩
      · exact ⟨_, rfl, Or.inl (base_sp hg)⟩
      · exact ⟨_, rfl, Or.inl (base_tp hg)⟩
      · exact ⟨_, rfl, Or.inl (base_sbp hg)⟩
      · exact ⟨_, rfl, Or.inl (base_dbp hg)⟩
      · exact ⟨_, rfl, Or.inl (base_steps hg)⟩
      · exact ⟨_, rfl, Or.inl (base_stress hg)⟩
      · exact ⟨_, rfl, Or.inl (base_sleep hg)⟩

/-- Witness for C8 at a concrete forced-anomaly reading and metric. -/
theorem reading_range_containment_witness :
    ∃ v, (setKey (base_data gZero 0) "spo2"
        (randintR gZero (RV.int 85, RV.int 94))).lookup "spo2" = some v ∧
      metric_ok (reading_anomaly gZero (some "low_oxygen")) "spo2" v :=
  reading_range_containment gZero 0 (some "low_oxygen") _ gZero_valid
    (by simp [generate_reading, reading_anomaly, anomaly_types, apply_anomaly, apply_one,
      List.lookup])
    "spo2" (by simp [metric_names])

end Aarogya
